import Mathlib

/-!
Shallow embedding of `src/mistralrs-core/src/pipeline/gguf.rs`: the GGUF model loader
(`GgufLoader`), the architecture resolver (`GgufArchitecture::from_str`), the model
factory inside `GgufLoader::_setup_model`, and the pipeline aggregate (`GgufPipeline`)
with its forward dispatcher and accessors.

External collaborators (the quantized container reader, the concrete model
constructors, the safetensors loader, the tokenizer provider, the chat-template
resolver and the input builder) are not reimplemented: the outcome of each external
call made by the source is an explicit input of the embedding, so that the control
flow written in gguf.rs is what the definitions model.  Rust `Result` returns are
`Outcome.ok` / `Outcome.err`; a Rust panic (an `unwrap` on a missing value) is the
distinct `Outcome.panicked` constructor, because a panic is not a returned error.
-/

namespace MistralRS

/-- Modelled from the spec: `ModelKind` is declared outside `src/`; per spec section 3 it
is the closed enumeration of load kinds this file handles (plain quantized, quantized
plus static LoRA, quantized plus dynamic X-LoRA). -/
inductive ModelKind where
  | quantizedGGUF
  | loraGGUF
  | xloraGGUF
deriving DecidableEq

/-- The closed set of container architecture tags (`enum GgufArchitecture`, gguf.rs
lines 107-119). -/
inductive GgufArchitecture where
  | llama
  | mpt
  | gptneox
  | gptj
  | gpt2
  | bloom
  | falcon
  | mamba
  | rwkv
  | phi2
deriving DecidableEq

/-- The derived `Debug` rendering of a `GgufArchitecture` value, which is what the
`bail!("... {a:?}")` messages of `_setup_model` interpolate. -/
def GgufArchitecture.debugFmt : GgufArchitecture → String
  | .llama => "Llama"
  | .mpt => "Mpt"
  | .gptneox => "Gptneox"
  | .gptj => "Gptj"
  | .gpt2 => "Gpt2"
  | .bloom => "Bloom"
  | .falcon => "Falcon"
  | .mamba => "Mamba"
  | .rwkv => "Rwkv"
  | .phi2 => "Phi2"

/-- The container tag accepted for each architecture by the resolver. -/
def GgufArchitecture.tag : GgufArchitecture → String
  | .llama => "llama"
  | .mpt => "mpt"
  | .gptneox => "gptneox"
  | .gptj => "gptj"
  | .gpt2 => "gpt2"
  | .bloom => "bloom"
  | .falcon => "falcon"
  | .mamba => "mamba"
  | .rwkv => "rwkv"
  | .phi2 => "phi2"

/-- The known architecture tags, in the order the source matches them. -/
def knownArchTags : List String :=
  ["llama", "mpt", "gptneox", "gptj", "gpt2", "bloom", "falcon", "mamba", "rwkv", "phi2"]

/-- Resolver `GgufArchitecture::from_str` (gguf.rs lines 121-139): resolve the container tag or
fail with a message naming the unrecognized tag. -/
def GgufArchitecture.fromStr (s : String) : Except String GgufArchitecture :=
  if s = "llama" then .ok .llama
  else if s = "mpt" then .ok .mpt
  else if s = "gptneox" then .ok .gptneox
  else if s = "gptj" then .ok .gptj
  else if s = "gpt2" then .ok .gpt2
  else if s = "bloom" then .ok .bloom
  else if s = "falcon" then .ok .falcon
  else if s = "mamba" then .ok .mamba
  else if s = "rwkv" then .ok .rwkv
  else if s = "phi2" then .ok .phi2
  else .error ("Unknown GGUF architecture `" ++ s ++ "`")

/-- Modelled from the spec: per-adapter LoRA configuration (`mistralrs_lora::LoraConfig`,
outside `src/`); opaque here, only carried through the factory. -/
structure LoraConfig where
  rank : Nat
deriving DecidableEq

/-- Modelled from the spec: X-LoRA classifier configuration
(`xlora_models::XLoraConfig`, outside `src/`); opaque here. -/
structure XLoraConfig where
  hidden_size : Nat
deriving DecidableEq

/-- Modelled from the spec: adapter ordering (`mistralrs_lora::Ordering`, outside
`src/`), a structure mapping adapter names to target computation sites; only its
`base_model_id` field is read by this file. -/
structure Ordering where
  base_model_id : String
deriving DecidableEq

/-- Modelled from the spec: an opaque compute device handle
(`candle_core::Device`, outside `src/`). -/
structure Device where
  handle : Nat
deriving DecidableEq

/-- Modelled from the spec: an opaque tensor (`candle_core::Tensor`, outside `src/`). -/
structure Tensor where
  handle : Nat
deriving DecidableEq

/-- Modelled from the spec: an opaque compute error (`candle_core::Error`). -/
structure CandleError where
  msg : String
deriving DecidableEq

/-- Modelled from the spec: the plain quantized LLaMA-family model
(`models::quantized_llama::ModelWeights`, outside `src/`); the fields this file
reads are the device, the cache (only its layer count) and the maximum sequence
length. -/
structure QLlama where
  device : Device
  cache_len : Nat
  max_seq_len : Nat
deriving DecidableEq

/-- Modelled from the spec: the plain quantized Phi-2 model
(`models::quantized_phi2::ModelWeights`, outside `src/`). -/
structure QPhi where
  device : Device
  cache_len : Nat
  max_seq_len : Nat
deriving DecidableEq

/-- Modelled from the spec: the adapter-aware quantized LLaMA-family model
(`xlora_models::XLoraModelWeights`, outside `src/`); the merged adapter weights it
owns are opaque here. -/
structure XLoraQLlama where
  device : Device
  cache_len : Nat
  max_seq_len : Nat
deriving DecidableEq

/-- The closed tagged union over constructed models (`enum Model`, gguf.rs
lines 32-36). -/
inductive Model where
  | llama (m : QLlama)
  | phi2 (m : QPhi)
  | xLoraLlama (m : XLoraQLlama)
deriving DecidableEq

/-- Whether the stored variant is the adapter-aware concrete type. -/
def Model.isXLoraVariant : Model → Bool
  | .xLoraLlama _ => true
  | _ => false

/-- State `NonGranularState` (`xlora_models`, outside `src/`): per spec section 4.4 a shared
mutually-exclusive counter plus a fixed target index.  The `Arc<Mutex<usize>>` counter
is modelled by its value; `_setup_model` constructs it with the counter at zero. -/
structure NonGranularState where
  non_granular_index : Nat
  tgt_non_granular_index : Nat
deriving DecidableEq

/-- Modelled from the spec: the tokenizer provider (`tokenizers::Tokenizer`, outside
`src/`); this file only uses its vocabulary as a string-to-id lookup. -/
structure Tokenizer where
  vocab : List (String × Nat)
deriving DecidableEq

/-- Lookup `tokenizer.get_vocab(true).get(s)`: exact-string vocabulary lookup. -/
def Tokenizer.getVocab (t : Tokenizer) (s : String) : Option Nat :=
  (t.vocab.find? (fun p => p.fst == s)).map Prod.snd

/-- Modelled from the spec: the vocabulary trie built by `build_tok_trie`
(`aici::bintokens`, outside `src/`); constructed and stored, never queried here. -/
structure TokTrie where
  vocab_size : Nat
deriving DecidableEq

/-- Modelled from the spec: `build_tok_trie(tokenizer.clone())` builds the immutable
vocabulary trie from the tokenizer. -/
def build_tok_trie (t : Tokenizer) : TokTrie :=
  { vocab_size := t.vocab.length }

/-- Modelled from the spec: the deserialized chat template (`pipeline::ChatTemplate`,
outside `src/`); this file reads its bos and eos token strings. -/
structure ChatTemplate where
  bos_tok : String
  eos_tok : String
deriving DecidableEq

/-- Configuration `GgufSpecificConfig` (gguf.rs lines 141-144). -/
structure GgufSpecificConfig where
  repeat_last_n : Nat
deriving DecidableEq

/-- Paths `MistralModelPaths` (gguf.rs lines 38-48), with filesystem paths as strings. -/
structure MistralModelPaths where
  tokenizer_filename : String
  config_filename : String
  template_filename : String
  filenames : List String
  xlora_adapter_filenames : Option (List (String × String))
  xlora_adapter_configs : Option (List (String × LoraConfig))
  classifier_path : Option String
  classifier_config : Option XLoraConfig
  xlora_ordering : Option Ordering
deriving DecidableEq

/-- Aggregate `GgufPipeline` (gguf.rs lines 80-91). -/
structure GgufPipeline where
  model : Model
  config : GgufSpecificConfig
  tokenizer : Tokenizer
  tok_trie : TokTrie
  no_kv_cache : Bool
  chat_template : ChatTemplate
  model_id : String
  eos_tok : List Nat
  non_granular_state : Option NonGranularState
  is_lora : Bool
deriving DecidableEq

/-- Loader `GgufLoader` (gguf.rs lines 93-105). -/
structure GgufLoader where
  model_id : String
  config : GgufSpecificConfig
  quantized_model_id : Option String
  quantized_filename : Option String
  xlora_model_id : Option String
  xlora_order : Option Ordering
  no_kv_cache : Bool
  chat_template : Option String
  tokenizer_json : Option String
  kind : ModelKind
  tgt_non_granular_index : Option Nat
deriving DecidableEq

/-- Modelled from the spec: the structured header returned by the quantized container
reader (`gguf_file::Content`, outside `src/`); the source indexes the metadata map at
`general.architecture` directly, so that entry is carried as a plain field. -/
structure GgufContent where
  architecture : String
deriving DecidableEq

/-- The outcome of a Rust call in the embedding: a returned `Ok`, a returned `Err`,
or a panic (which in Rust unwinds past the `Result` return type). -/
inductive Outcome (ε α : Type) where
  | ok (a : α)
  | err (e : ε)
  | panicked (msg : String)
deriving DecidableEq

/-- Lift a returned `Result` into an `Outcome`. -/
def Outcome.ofResult {ε α : Type} : Except ε α → Outcome ε α
  | .ok a => .ok a
  | .error e => .err e

/-- Whether an outcome is a returned error. -/
def Outcome.isErr {ε α : Type} : Outcome ε α → Bool
  | .err _ => true
  | _ => false

/-- Whether an outcome is a returned value. -/
def Outcome.isOk {ε α : Type} : Outcome ε α → Bool
  | .ok _ => true
  | _ => false

/-- The message of the Rust panic raised by `Option::unwrap` on `None`. -/
def optionUnwrapPanicMsg : String := "called `Option::unwrap()` on a `None` value"

/-- The message of the Rust panic raised by `Result::unwrap` on `Err`. -/
def resultUnwrapPanicMsg : String := "called `Result::unwrap()` on an `Err` value"

/-- Modelled from the spec: the path annotation `e.with_path(p)` attached by the
container reader error (spec section 6: container failures are attributable to a
specific file path). -/
def withPath (e p : String) : String := p ++ ": " ++ e

/-- Outcomes of the external collaborator calls performed by `_setup_model`; each
field is the result the corresponding external call would return, making the control
flow of gguf.rs the object of study. -/
structure Externals where
  /-- Outcome of `gguf_file::Content::read` on the first weight file. -/
  container_read : Except String GgufContent
  /-- Outcome of `QLlama::from_gguf` (plain LLaMA-family constructor). -/
  qllama_from_gguf : Except String QLlama
  /-- Outcome of `QPhi::from_gguf` (plain Phi-2 constructor). -/
  qphi_from_gguf : Except String QPhi
  /-- Outcome of `XLoraQLlama::from_gguf` (adapter-aware constructor). -/
  xlora_from_gguf : Except String XLoraQLlama
  /-- Outcome of `from_mmaped_safetensors` (adapter / classifier weight mapping). -/
  safetensors_vb : Except String Unit
  /-- Outcome of `Tokenizer::from_file`. -/
  tokenizer_from_file : Except String Tokenizer
  /-- Outcome of the chat-template resolution step. -/
  chat_template : Except String ChatTemplate

/-- Modelled from the spec: `calculate_eos_tok` (declared in `pipeline/mod.rs`, not
under `src/`) resolves each end-of-sequence token string to its integer id through
the tokenizer vocabulary (spec section 4.5); each string is resolved independently,
and strings absent from the vocabulary contribute nothing in this model. -/
def calculate_eos_tok (eos_toks : List String) (tokenizer : Tokenizer) : List Nat :=
  eos_toks.filterMap (fun s => tokenizer.getVocab s)

/-- The end-of-sequence token strings assembled by `_setup_model` (gguf.rs lines
302-307): the chat template eos token, then the fixed string `<|eot_id|>` exactly
when the tokenizer vocabulary contains it (the Llama3 chat case). -/
def eosTokenStrings (chat_template : ChatTemplate) (tokenizer : Tokenizer) : List String :=
  [chat_template.eos_tok] ++
    (if (tokenizer.getVocab "<|eot_id|>").isSome then ["<|eot_id|>"] else [])

/-- The model-factory block of `_setup_model` (gguf.rs lines 229-296): the
`match self.kind` expression that constructs the `Model` variant, together with the
`is_lora` flag it sets.  Every `.unwrap()` of the source on a missing `Option` is the
`panicked` outcome; the arms keep the evaluation order of the source (for the adapter
kinds the safetensors view is built, with its own unwraps, before the architecture is
matched, and the constructor arguments are unwrapped left to right). -/
def GgufLoader.chooseModel (kind : ModelKind) (arch : GgufArchitecture)
    (paths : MistralModelPaths) (ext : Externals) : Outcome String (Model × Bool) :=
  match kind with
  | .quantizedGGUF =>
    match arch with
    | .llama =>
      match ext.qllama_from_gguf with
      | .ok m => .ok (Model.llama m, false)
      | .error e => .err e
    | .phi2 =>
      match ext.qphi_from_gguf with
      | .ok m => .ok (Model.phi2 m, false)
      | .error e => .err e
    | a => .err ("Unsupported architecture `" ++ a.debugFmt ++ "`")
  | .xloraGGUF =>
    match paths.classifier_path with
    | none => .panicked optionUnwrapPanicMsg
    | some _ =>
      match paths.xlora_adapter_filenames with
      | none => .panicked optionUnwrapPanicMsg
      | some _ =>
        match ext.safetensors_vb with
        | .error e => .err e
        | .ok _ =>
          match arch with
          | .llama =>
            match paths.xlora_adapter_configs with
            | none => .panicked optionUnwrapPanicMsg
            | some _ =>
              match paths.xlora_ordering with
              | none => .panicked optionUnwrapPanicMsg
              | some _ =>
                match paths.classifier_config with
                | none => .panicked optionUnwrapPanicMsg
                | some _ =>
                  match ext.xlora_from_gguf with
                  | .ok m => .ok (Model.xLoraLlama m, false)
                  | .error e => .err e
          | a => .err ("Unsupported architecture for GGUF X-LoRA `" ++ a.debugFmt ++ "`")
  | .loraGGUF =>
    match paths.xlora_adapter_filenames with
    | none => .panicked optionUnwrapPanicMsg
    | some _ =>
      match ext.safetensors_vb with
      | .error e => .err e
      | .ok _ =>
        match arch with
        | .llama =>
          match paths.xlora_adapter_configs with
          | none => .panicked optionUnwrapPanicMsg
          | some _ =>
            match paths.xlora_ordering with
            | none => .panicked optionUnwrapPanicMsg
            | some _ =>
              match paths.classifier_config with
              | none => .panicked optionUnwrapPanicMsg
              | some _ =>
                match ext.xlora_from_gguf with
                | .ok m => .ok (Model.xLoraLlama m, true)
                | .error e => .err e
        | a => .err ("Unsupported architecture for GGUF X-LoRA `" ++ a.debugFmt ++ "`")

/-- Setup `GgufLoader::_setup_model` (gguf.rs lines 208-333): open the first weight file
(an unwrap that panics when the list is empty), read the container, resolve the
architecture, run the model factory, load the tokenizer (its failure wrapped by the
`TokenizerError` display format), resolve the chat template, and assemble the
`GgufPipeline`, whose non-granular state is built from `tgt_non_granular_index`
alone with its counter at zero. -/
def GgufLoader._setup_model (self : GgufLoader) (paths : MistralModelPaths)
    (ext : Externals) : Outcome String GgufPipeline :=
  match paths.filenames.head? with
  | none => .panicked optionUnwrapPanicMsg
  | some weight_path =>
    match ext.container_read with
    | .error e => .err (withPath e weight_path)
    | .ok content =>
      match GgufArchitecture.fromStr content.architecture with
      | .error e => .err e
      | .ok arch =>
        match GgufLoader.chooseModel self.kind arch paths ext with
        | .panicked m => .panicked m
        | .err m => .err m
        | .ok (model, is_lora) =>
          match ext.tokenizer_from_file with
          | .error e => .err ("`" ++ e ++ "`")
          | .ok tokenizer =>
            match ext.chat_template with
            | .error e => .err e
            | .ok chat_template =>
              .ok
                { model := model
                  config := self.config
                  eos_tok := calculate_eos_tok (eosTokenStrings chat_template tokenizer) tokenizer
                  tok_trie := build_tok_trie tokenizer
                  tokenizer := tokenizer
                  no_kv_cache := self.no_kv_cache
                  chat_template := chat_template
                  model_id := self.model_id
                  non_granular_state := self.tgt_non_granular_index.map
                    (fun tgt => { non_granular_index := 0, tgt_non_granular_index := tgt })
                  is_lora := is_lora }

/-- Accessor `GgufLoader::get_kind` (gguf.rs lines 339-341): always the plain quantized kind. -/
def GgufLoader.get_kind (_self : GgufLoader) : ModelKind :=
  ModelKind.quantizedGGUF

/-- Accessor `GgufPipeline::is_xlora` (gguf.rs lines 423-428). -/
def GgufPipeline.is_xlora (self : GgufPipeline) : Bool :=
  match self.model with
  | .llama _ => false
  | .phi2 _ => false
  | .xLoraLlama _ => !self.is_lora

/-- Accessor `GgufPipeline::device` (gguf.rs lines 387-393). -/
def GgufPipeline.device (self : GgufPipeline) : Device :=
  match self.model with
  | .llama m => m.device
  | .phi2 m => m.device
  | .xLoraLlama m => m.device

/-- Accessor `GgufPipeline::get_non_granular_state` (gguf.rs lines 435-437): the accessor
returns a reference to a literal `None`, never the stored field. -/
def GgufPipeline.get_non_granular_state (_self : GgufPipeline) : Option NonGranularState :=
  none

/-- Modelled from the spec: the `ModelInputs` bundle produced by the external input
builder `calculate_inputs` (`pipeline/mod.rs`, not under `src/`); the field names are
the ones destructured by `GgufPipeline::forward` (gguf.rs lines 350-357). -/
structure ModelInputs where
  input_ids : Tensor
  input_ids_full : Option Tensor
  seqlen_offsets : List Nat
  seqlen_offsets_full : Option (List Nat)
  seqlen_offsets_kernel : Tensor
  seqlen_offsets_kernel_full : Option Tensor
  context_lens : List Nat
deriving DecidableEq

/-- The native forward routines of the three concrete models (external collaborators);
each takes exactly the argument list its dispatch arm passes. -/
structure ModelBehaviors where
  llamaForward : Tensor → List Nat → Tensor → List Nat → Except CandleError Tensor
  phi2Forward : Tensor → List Nat → List Nat → Except CandleError Tensor
  xloraForward : Tensor → Tensor → List Nat → List Nat → Tensor → Tensor → Bool →
    Option NonGranularState → List Nat → Except CandleError Tensor

/-- The `match self.model` dispatch block of `GgufPipeline::forward` (gguf.rs lines
366-385): each arm calls the native forward of its variant with the argument list of
the source, the adapter-aware arm substituting the primary tensors wherever the
corresponding full tensor was not built. -/
def GgufPipeline.dispatch (self : GgufPipeline) (beh : ModelBehaviors)
    (inputs : ModelInputs) : Except CandleError Tensor :=
  match self.model with
  | .llama _ =>
    beh.llamaForward inputs.input_ids inputs.seqlen_offsets inputs.seqlen_offsets_kernel
      inputs.context_lens
  | .phi2 _ =>
    beh.phi2Forward inputs.input_ids inputs.seqlen_offsets inputs.context_lens
  | .xLoraLlama _ =>
    beh.xloraForward inputs.input_ids
      (inputs.input_ids_full.getD inputs.input_ids)
      inputs.seqlen_offsets
      (inputs.seqlen_offsets_full.getD inputs.seqlen_offsets)
      inputs.seqlen_offsets_kernel
      (inputs.seqlen_offsets_kernel_full.getD inputs.seqlen_offsets_kernel)
      self.no_kv_cache
      self.non_granular_state
      inputs.context_lens

/-- Dispatcher `GgufPipeline::forward` (gguf.rs lines 345-386): build the inputs through the
external builder, called with the prompt flag, `is_xlora()`, the device and the
no-cache flag; the builder result is `.unwrap()`ed, so a builder failure panics, and
the dispatched forward result is returned unchanged. -/
def GgufPipeline.forward (self : GgufPipeline) (beh : ModelBehaviors)
    (builder : Bool → Bool → Device → Bool → Except String ModelInputs)
    (is_prompt : Bool) : Outcome CandleError Tensor :=
  match builder is_prompt self.is_xlora self.device self.no_kv_cache with
  | .error _ => .panicked resultUnwrapPanicMsg
  | .ok inputs => Outcome.ofResult (self.dispatch beh inputs)

/-- The stored non-granular state of a successful setup outcome, when it produced a
pipeline. -/
def pipelineStateOf : Outcome String GgufPipeline → Option (Option NonGranularState)
  | .ok p => some p.non_granular_state
  | _ => none

/-- The eos id list of a successful setup outcome, when it produced a pipeline. -/
def pipelineEosOf : Outcome String GgufPipeline → Option (List Nat)
  | .ok p => some p.eos_tok
  | _ => none

/-! Concrete sample values used by witnesses and counterexamples. -/

/-- A sample device handle. -/
def sampleDevice : Device := { handle := 0 }

/-- A sample plain LLaMA-family model instance. -/
def sampleQLlama : QLlama := { device := sampleDevice, cache_len := 2, max_seq_len := 8 }

/-- A sample plain Phi-2 model instance. -/
def sampleQPhi : QPhi := { device := sampleDevice, cache_len := 2, max_seq_len := 8 }

/-- A sample adapter-aware model instance. -/
def sampleXLoraQLlama : XLoraQLlama :=
  { device := sampleDevice, cache_len := 2, max_seq_len := 8 }

/-- A sample tokenizer whose vocabulary holds the template eos token and the fixed
Llama3 end-of-turn marker at distinct ids. -/
def sampleTokenizer : Tokenizer := { vocab := [("</s>", 2), ("<|eot_id|>", 3)] }

/-- A tokenizer whose vocabulary maps the template eos token and the fixed Llama3
end-of-turn marker to the same id. -/
def dupTokenizer : Tokenizer := { vocab := [("</s>", 5), ("<|eot_id|>", 5)] }

/-- A sample chat template declaring `</s>` as its end-of-sequence token. -/
def sampleTemplate : ChatTemplate := { bos_tok := "<s>", eos_tok := "</s>" }

/-- A sample loader configuration. -/
def sampleConfig : GgufSpecificConfig := { repeat_last_n := 64 }

/-- Externals for a fully successful load. -/
def sampleExternals : Externals :=
  { container_read := .ok { architecture := "llama" }
    qllama_from_gguf := .ok sampleQLlama
    qphi_from_gguf := .ok sampleQPhi
    xlora_from_gguf := .ok sampleXLoraQLlama
    safetensors_vb := .ok ()
    tokenizer_from_file := .ok sampleTokenizer
    chat_template := .ok sampleTemplate }

/-- Externals identical to `sampleExternals` but loading the duplicate-id tokenizer. -/
def dupExternals : Externals :=
  { sampleExternals with tokenizer_from_file := .ok dupTokenizer }

/-- Resolved paths with no adapter material (a plain load). -/
def plainPathsSample : MistralModelPaths :=
  { tokenizer_filename := "tokenizer.json"
    config_filename := "config.json"
    template_filename := "template.json"
    filenames := ["model.gguf"]
    xlora_adapter_filenames := none
    xlora_adapter_configs := none
    classifier_path := none
    classifier_config := none
    xlora_ordering := none }

/-- Resolved paths with every adapter input present. -/
def adapterPathsSample : MistralModelPaths :=
  { tokenizer_filename := "tokenizer.json"
    config_filename := "config.json"
    template_filename := "template.json"
    filenames := ["model.gguf"]
    xlora_adapter_filenames := some [("a1", "adapter1.safetensors")]
    xlora_adapter_configs := some [("a1", { rank := 8 })]
    classifier_path := some "classifier.safetensors"
    classifier_config := some { hidden_size := 16 }
    xlora_ordering := some { base_model_id := "base" } }

/-- Adapter paths with the classifier config absent (the example of the spec). -/
def adapterPathsNoClassifierCfg : MistralModelPaths :=
  { adapterPathsSample with classifier_config := none }

/-- Adapter paths with the adapter configs absent. -/
def adapterPathsNoCfg : MistralModelPaths :=
  { adapterPathsSample with xlora_adapter_configs := none }

/-- A plain-kind loader that was nevertheless configured with a target non-granular
index. -/
def plainLoaderTgt : GgufLoader :=
  { model_id := "m", config := sampleConfig, quantized_model_id := none
    quantized_filename := none, xlora_model_id := none, xlora_order := none
    no_kv_cache := false, chat_template := none, tokenizer_json := none
    kind := ModelKind.quantizedGGUF, tgt_non_granular_index := some 0 }

/-- A plain-kind loader with no target non-granular index. -/
def plainLoaderSample : GgufLoader :=
  { model_id := "m", config := sampleConfig, quantized_model_id := none
    quantized_filename := none, xlora_model_id := none, xlora_order := none
    no_kv_cache := false, chat_template := none, tokenizer_json := none
    kind := ModelKind.quantizedGGUF, tgt_non_granular_index := none }

/-- A static-LoRA-kind loader. -/
def loraLoaderSample : GgufLoader :=
  { model_id := "m", config := sampleConfig, quantized_model_id := none
    quantized_filename := none, xlora_model_id := some "adapters"
    xlora_order := some { base_model_id := "base" }
    no_kv_cache := false, chat_template := none, tokenizer_json := none
    kind := ModelKind.loraGGUF, tgt_non_granular_index := none }

/-- An X-LoRA-kind loader configured with target non-granular index 2. -/
def xloraLoaderSample : GgufLoader :=
  { model_id := "m", config := sampleConfig, quantized_model_id := none
    quantized_filename := none, xlora_model_id := some "adapters"
    xlora_order := some { base_model_id := "base" }
    no_kv_cache := false, chat_template := none, tokenizer_json := none
    kind := ModelKind.xloraGGUF, tgt_non_granular_index := some 2 }

/-- The pipeline produced by the sample X-LoRA load. -/
def xloraPipelineSample : GgufPipeline :=
  { model := Model.xLoraLlama sampleXLoraQLlama
    config := sampleConfig
    tokenizer := sampleTokenizer
    tok_trie := { vocab_size := 2 }
    no_kv_cache := false
    chat_template := sampleTemplate
    model_id := "m"
    eos_tok := [2, 3]
    non_granular_state := some { non_granular_index := 0, tgt_non_granular_index := 2 }
    is_lora := false }

/-- The pipeline produced by the sample static-LoRA load. -/
def loraPipelineSample : GgufPipeline :=
  { model := Model.xLoraLlama sampleXLoraQLlama
    config := sampleConfig
    tokenizer := sampleTokenizer
    tok_trie := { vocab_size := 2 }
    no_kv_cache := false
    chat_template := sampleTemplate
    model_id := "m"
    eos_tok := [2, 3]
    non_granular_state := none
    is_lora := true }

/-- A directly assembled plain Phi-2 pipeline. -/
def phi2PipelineSample : GgufPipeline :=
  { model := Model.phi2 sampleQPhi
    config := sampleConfig
    tokenizer := sampleTokenizer
    tok_trie := { vocab_size := 2 }
    no_kv_cache := false
    chat_template := sampleTemplate
    model_id := "m"
    eos_tok := [2, 3]
    non_granular_state := none
    is_lora := false }

/-- A directly assembled plain LLaMA-family pipeline. -/
def llamaPipelineSample : GgufPipeline :=
  { model := Model.llama sampleQLlama
    config := sampleConfig
    tokenizer := sampleTokenizer
    tok_trie := { vocab_size := 2 }
    no_kv_cache := false
    chat_template := sampleTemplate
    model_id := "m"
    eos_tok := [2, 3]
    non_granular_state := none
    is_lora := false }

/-- Sample built inputs for forward dispatch. -/
def sampleInputs : ModelInputs :=
  { input_ids := { handle := 10 }
    input_ids_full := none
    seqlen_offsets := [0]
    seqlen_offsets_full := none
    seqlen_offsets_kernel := { handle := 11 }
    seqlen_offsets_kernel_full := none
    context_lens := [1] }

/-- Sample native forward behaviors that all succeed. -/
def sampleBehaviors : ModelBehaviors :=
  { llamaForward := fun _ _ _ _ => .ok { handle := 1 }
    phi2Forward := fun _ _ _ => .ok { handle := 2 }
    xloraForward := fun _ _ _ _ _ _ _ _ _ => .ok { handle := 3 } }

/-- Native forward behaviors whose LLaMA-family arm fails. -/
def errorBehaviors : ModelBehaviors :=
  { llamaForward := fun _ _ _ _ => .error { msg := "kernel failed" }
    phi2Forward := fun _ _ _ => .ok { handle := 2 }
    xloraForward := fun _ _ _ _ _ _ _ _ _ => .ok { handle := 3 } }

/-- An input builder that always succeeds with the sample inputs. -/
def constBuilder : Bool → Bool → Device → Bool → Except String ModelInputs :=
  fun _ _ _ _ => .ok sampleInputs

/-- An input builder that always fails. -/
def failingBuilder : Bool → Bool → Device → Bool → Except String ModelInputs :=
  fun _ _ _ _ => .error "input construction failed"

/-! Theorems settling the claims. -/

/-- Claim C3: architecture resolution succeeds with the matching enumeration member on
every known tag, and on every string outside the known set it fails with an error
message that contains the original tag text (it is the literal prefix, the tag, and
the literal suffix). -/
theorem c3_architecture_resolution :
    (∀ a : GgufArchitecture, GgufArchitecture.fromStr a.tag = Except.ok a) ∧
    (∀ s : String, s ∉ knownArchTags →
      GgufArchitecture.fromStr s =
        Except.error ("Unknown GGUF architecture `" ++ s ++ "`") ∧
      ∃ pre post, ("Unknown GGUF architecture `" ++ s ++ "`") = pre ++ s ++ post) := by
  constructor
  · intro a
    cases a <;> rfl
  · intro s hs
    have hne : ∀ t ∈ knownArchTags, s ≠ t := by
      intro t ht h
      exact hs (by rw [h]; exact ht)
    refine ⟨?_, "Unknown GGUF architecture `", "`", rfl⟩
    unfold GgufArchitecture.fromStr
    rw [if_neg (hne "llama" (by decide)), if_neg (hne "mpt" (by decide)),
      if_neg (hne "gptneox" (by decide)), if_neg (hne "gptj" (by decide)),
      if_neg (hne "gpt2" (by decide)), if_neg (hne "bloom" (by decide)),
      if_neg (hne "falcon" (by decide)), if_neg (hne "mamba" (by decide)),
      if_neg (hne "rwkv" (by decide)), if_neg (hne "phi2" (by decide))]

/-- Witness for claim C3 at concrete tags: the known tag `llama` resolves, and the
unknown tag `gpt3` fails with a message containing it. -/
theorem c3_witness :
    GgufArchitecture.fromStr "llama" = Except.ok GgufArchitecture.llama ∧
    GgufArchitecture.fromStr "gpt3" =
      Except.error ("Unknown GGUF architecture `" ++ "gpt3" ++ "`") :=
  ⟨c3_architecture_resolution.1 GgufArchitecture.llama,
   (c3_architecture_resolution.2 "gpt3" (by decide)).1⟩

/-- Claim C8: the `get_non_granular_state` accessor reports no state for every
pipeline, including the sample X-LoRA pipeline that stores a constructed state. -/
theorem c8_get_non_granular_state_always_none :
    (∀ p : GgufPipeline, p.get_non_granular_state = none) ∧
    xloraPipelineSample.non_granular_state =
      some { non_granular_index := 0, tgt_non_granular_index := 2 } ∧
    xloraPipelineSample.get_non_granular_state = none :=
  ⟨fun _ => rfl, rfl, rfl⟩

/-- Claim C10: `get_kind` returns the plain quantized kind for every loader, including
the sample loader whose stored kind field is the static-LoRA kind. -/
theorem c10_get_kind_always_plain :
    (∀ l : GgufLoader, l.get_kind = ModelKind.quantizedGGUF) ∧
    loraLoaderSample.kind = ModelKind.loraGGUF ∧
    loraLoaderSample.get_kind = ModelKind.quantizedGGUF :=
  ⟨fun _ => rfl, rfl, rfl⟩

/-- Claim C1 counterexample: a plain-kind (QuantizedGGUF) load whose loader was
configured with `tgt_non_granular_index = some 0` succeeds and stores a Non-Granular
Adaptation State, so the state is not absent on every plain-kind load. -/
theorem c1_counterexample_plain_load_state_present :
    pipelineStateOf (GgufLoader._setup_model plainLoaderTgt plainPathsSample sampleExternals) =
      some (some { non_granular_index := 0, tgt_non_granular_index := 0 }) := by
  decide

/-- Claim C1 as amended: for every successful load of any kind, the stored
Non-Granular Adaptation State mirrors the loader field `tgt_non_granular_index`
alone — absent when that field is absent, and otherwise present with the configured
target index and a counter initialized to zero. -/
theorem c1_amended_state_mirrors_tgt_index (self : GgufLoader)
    (paths : MistralModelPaths) (ext : Externals) (p : GgufPipeline)
    (h : GgufLoader._setup_model self paths ext = Outcome.ok p) :
    p.non_granular_state = self.tgt_non_granular_index.map
      (fun tgt => ({ non_granular_index := 0, tgt_non_granular_index := tgt } :
        NonGranularState)) := by
  unfold GgufLoader._setup_model at h
  repeat' split at h
  all_goals try exact Outcome.noConfusion h
  injection h with h
  subst h
  rfl

/-- Witness for the amended claim C1: the sample X-LoRA load, configured with target
index 2, yields the stored state with counter zero and target index 2. -/
theorem c1_amended_witness :
    xloraPipelineSample.non_granular_state = xloraLoaderSample.tgt_non_granular_index.map
      (fun tgt => ({ non_granular_index := 0, tgt_non_granular_index := tgt } :
        NonGranularState)) :=
  c1_amended_state_mirrors_tgt_index xloraLoaderSample adapterPathsSample
    sampleExternals xloraPipelineSample (by decide)

/-- Helper: when the model-factory block returns a variant, the returned flag holds
exactly for the static-LoRA kind, and the adapter kinds return the adapter-aware
variant. -/
theorem chooseModel_ok_flags (k : ModelKind) (arch : GgufArchitecture)
    (paths : MistralModelPaths) (ext : Externals) (m : Model) (b : Bool)
    (h : GgufLoader.chooseModel k arch paths ext = Outcome.ok (m, b)) :
    (b = true ↔ k = ModelKind.loraGGUF) ∧
    ((k = ModelKind.loraGGUF ∨ k = ModelKind.xloraGGUF) → m.isXLoraVariant = true) := by
  unfold GgufLoader.chooseModel at h
  repeat' split at h
  all_goals try exact Outcome.noConfusion h
  all_goals injection h with h
  all_goals injection h with h1 h2
  all_goals subst h1
  all_goals subst h2
  all_goals simp_all [Model.isXLoraVariant]

/-- Helper: inversion of a successful setup, recovering the factory result and the
external tokenizer and chat template behind the constructed pipeline fields. -/
theorem setup_model_ok_inversion (self : GgufLoader) (paths : MistralModelPaths)
    (ext : Externals) (p : GgufPipeline)
    (h : GgufLoader._setup_model self paths ext = Outcome.ok p) :
    ∃ arch tokenizer chat_template,
      GgufLoader.chooseModel self.kind arch paths ext =
        Outcome.ok (p.model, p.is_lora) ∧
      ext.tokenizer_from_file = Except.ok tokenizer ∧
      ext.chat_template = Except.ok chat_template ∧
      p.eos_tok = calculate_eos_tok (eosTokenStrings chat_template tokenizer) tokenizer := by
  unfold GgufLoader._setup_model at h
  repeat' split at h
  all_goals try exact Outcome.noConfusion h
  injection h with h
  subst h
  exact ⟨_, _, _, by assumption, by assumption, by assumption, rfl⟩

/-- Claim C2: for every successfully constructed pipeline, `is_lora` holds exactly
when the requested kind was the static-LoRA kind, `is_xlora()` holds exactly when the
stored variant is the adapter-aware concrete type and `is_lora` is false, and a
static-LoRA-kind load yields the adapter-aware variant with `is_xlora()` false. -/
theorem c2_is_lora_and_is_xlora (self : GgufLoader) (paths : MistralModelPaths)
    (ext : Externals) (p : GgufPipeline)
    (h : GgufLoader._setup_model self paths ext = Outcome.ok p) :
    (p.is_lora = true ↔ self.kind = ModelKind.loraGGUF) ∧
    (p.is_xlora = (p.model.isXLoraVariant && !p.is_lora)) ∧
    (self.kind = ModelKind.loraGGUF →
      p.model.isXLoraVariant = true ∧ p.is_xlora = false) := by
  obtain ⟨arch, tok, ct, hcm, -, -, -⟩ := setup_model_ok_inversion self paths ext p h
  have hflags := chooseModel_ok_flags self.kind arch paths ext p.model p.is_lora hcm
  refine ⟨hflags.1, ?_, ?_⟩
  · cases hm : p.model <;> simp [GgufPipeline.is_xlora, Model.isXLoraVariant, hm]
  · intro hk
    have hv := hflags.2 (Or.inl hk)
    have hb : p.is_lora = true := hflags.1.mpr hk
    refine ⟨hv, ?_⟩
    cases hm : p.model with
    | llama m => simp [GgufPipeline.is_xlora, hm]
    | phi2 m => simp [GgufPipeline.is_xlora, hm]
    | xLoraLlama m => simp [GgufPipeline.is_xlora, hm, hb]

/-- Witness for claim C2: the sample static-LoRA load yields a pipeline whose variant
is the adapter-aware type, with the static flag set and `is_xlora()` false. -/
theorem c2_witness :
    (loraPipelineSample.is_lora = true ↔ loraLoaderSample.kind = ModelKind.loraGGUF) ∧
    (loraPipelineSample.is_xlora =
      (loraPipelineSample.model.isXLoraVariant && !loraPipelineSample.is_lora)) ∧
    (loraLoaderSample.kind = ModelKind.loraGGUF →
      loraPipelineSample.model.isXLoraVariant = true ∧
      loraPipelineSample.is_xlora = false) :=
  c2_is_lora_and_is_xlora loraLoaderSample adapterPathsSample sampleExternals
    loraPipelineSample (by decide)

/-- Claim C4: the model factory admits only the LLaMA-family and Phi-2 architectures
for the plain kind and only the LLaMA-family architecture for the adapter kinds; every
other resolved architecture fails with the corresponding unsupported-architecture
message naming the architecture, and the allowed combinations construct the variant
the external constructor returned. -/
theorem c4_factory_architecture_gating (arch : GgufArchitecture)
    (paths : MistralModelPaths) (ext : Externals) :
    (arch ≠ GgufArchitecture.llama → arch ≠ GgufArchitecture.phi2 →
      GgufLoader.chooseModel ModelKind.quantizedGGUF arch paths ext =
        Outcome.err ("Unsupported architecture `" ++ arch.debugFmt ++ "`")) ∧
    (∀ m, ext.qllama_from_gguf = Except.ok m →
      GgufLoader.chooseModel ModelKind.quantizedGGUF GgufArchitecture.llama paths ext =
        Outcome.ok (Model.llama m, false)) ∧
    (∀ m, ext.qphi_from_gguf = Except.ok m →
      GgufLoader.chooseModel ModelKind.quantizedGGUF GgufArchitecture.phi2 paths ext =
        Outcome.ok (Model.phi2 m, false)) ∧
    (paths.xlora_adapter_filenames.isSome = true → paths.classifier_path.isSome = true →
      ext.safetensors_vb = Except.ok () → arch ≠ GgufArchitecture.llama →
      GgufLoader.chooseModel ModelKind.xloraGGUF arch paths ext =
        Outcome.err ("Unsupported architecture for GGUF X-LoRA `" ++ arch.debugFmt ++ "`")) ∧
    (paths.xlora_adapter_filenames.isSome = true →
      ext.safetensors_vb = Except.ok () → arch ≠ GgufArchitecture.llama →
      GgufLoader.chooseModel ModelKind.loraGGUF arch paths ext =
        Outcome.err ("Unsupported architecture for GGUF X-LoRA `" ++ arch.debugFmt ++ "`")) ∧
    (∀ m, paths.xlora_adapter_filenames.isSome = true →
      paths.classifier_path.isSome = true → paths.xlora_adapter_configs.isSome = true →
      paths.xlora_ordering.isSome = true → paths.classifier_config.isSome = true →
      ext.safetensors_vb = Except.ok () → ext.xlora_from_gguf = Except.ok m →
      GgufLoader.chooseModel ModelKind.xloraGGUF GgufArchitecture.llama paths ext =
        Outcome.ok (Model.xLoraLlama m, false)) ∧
    (∀ k m b, GgufLoader.chooseModel k arch paths ext = Outcome.ok (m, b) →
      (k = ModelKind.quantizedGGUF →
        (arch = GgufArchitecture.llama ∨ arch = GgufArchitecture.phi2)) ∧
      ((k = ModelKind.loraGGUF ∨ k = ModelKind.xloraGGUF) →
        arch = GgufArchitecture.llama)) := by
  refine ⟨?_, ?_, ?_, ?_, ?_, ?_, ?_⟩
  · intro h1 h2
    cases arch
    case llama => exact absurd rfl h1
    case phi2 => exact absurd rfl h2
    all_goals rfl
  · intro m hm
    simp [GgufLoader.chooseModel, hm]
  · intro m hm
    simp [GgufLoader.chooseModel, hm]
  · intro hf hc hvb hne
    rcases haf : paths.xlora_adapter_filenames with _ | af
    · rw [haf] at hf; exact absurd hf (by simp)
    rcases hcp : paths.classifier_path with _ | cp
    · rw [hcp] at hc; exact absurd hc (by simp)
    cases arch
    case llama => exact absurd rfl hne
    all_goals simp [GgufLoader.chooseModel, haf, hcp, hvb]
  · intro hf hvb hne
    rcases haf : paths.xlora_adapter_filenames with _ | af
    · rw [haf] at hf; exact absurd hf (by simp)
    cases arch
    case llama => exact absurd rfl hne
    all_goals simp [GgufLoader.chooseModel, haf, hvb]
  · intro m hf hcp hac hor hcc hvb hm
    rcases h1 : paths.xlora_adapter_filenames with _ | af
    · rw [h1] at hf; exact absurd hf (by simp)
    rcases h2 : paths.classifier_path with _ | cp
    · rw [h2] at hcp; exact absurd hcp (by simp)
    rcases h3 : paths.xlora_adapter_configs with _ | ac
    · rw [h3] at hac; exact absurd hac (by simp)
    rcases h4 : paths.xlora_ordering with _ | oo
    · rw [h4] at hor; exact absurd hor (by simp)
    rcases h5 : paths.classifier_config with _ | cc
    · rw [h5] at hcc; exact absurd hcc (by simp)
    simp [GgufLoader.chooseModel, h1, h2, h3, h4, h5, hvb, hm]
  · intro k m b h
    constructor
    · intro hk
      subst hk
      cases arch <;> simp_all [GgufLoader.chooseModel]
    · intro hk
      rcases hk with hk | hk <;> subst hk <;> cases arch <;>
        first
          | rfl
          | (unfold GgufLoader.chooseModel at h
             repeat' split at h
             all_goals simp_all)

/-- Witness for claim C4 at concrete inputs: a plain-kind MPT load fails with the
unsupported-architecture message naming `Mpt`, and an X-LoRA-kind Phi-2 load with all
adapter inputs present fails with the unsupported-for-adapters message naming
`Phi2`. -/
theorem c4_witness :
    GgufLoader.chooseModel ModelKind.quantizedGGUF GgufArchitecture.mpt
      plainPathsSample sampleExternals =
      Outcome.err ("Unsupported architecture `" ++ GgufArchitecture.mpt.debugFmt ++ "`") ∧
    GgufLoader.chooseModel ModelKind.xloraGGUF GgufArchitecture.phi2
      adapterPathsSample sampleExternals =
      Outcome.err ("Unsupported architecture for GGUF X-LoRA `" ++
        GgufArchitecture.phi2.debugFmt ++ "`") :=
  ⟨(c4_factory_architecture_gating GgufArchitecture.mpt plainPathsSample
      sampleExternals).1 (by decide) (by decide),
   (c4_factory_architecture_gating GgufArchitecture.phi2 adapterPathsSample
      sampleExternals).2.2.2.1 (by decide) (by decide) rfl (by decide)⟩

/-- Claim C5 counterexample: the X-LoRA-kind load of the spec example (ordering
present, classifier config absent) aborts by the unwrap panic, and in particular does
not fail by returning an error value at all, so it does not fail with a
MissingAdapterConfiguration error. -/
theorem c5_counterexample_panic_not_error :
    GgufLoader._setup_model xloraLoaderSample adapterPathsNoClassifierCfg
      sampleExternals = Outcome.panicked optionUnwrapPanicMsg ∧
    Outcome.isErr (GgufLoader._setup_model xloraLoaderSample adapterPathsNoClassifierCfg
      sampleExternals) = false := by
  constructor <;> decide

/-- Claim C5 as amended: an adapter-kind load (with the safetensors step succeeding
where it is reached) that is missing the adapter weight files, the adapter configs,
the ordering, the classifier config, or — for the X-LoRA kind — the classifier
weights, aborts by the unwrap panic rather than by returning a structured error, and
never produces a pipeline model variant. -/
theorem c5_amended_missing_adapter_input_panics (k : ModelKind)
    (paths : MistralModelPaths) (ext : Externals)
    (hk : k = ModelKind.loraGGUF ∨ k = ModelKind.xloraGGUF)
    (hvb : ext.safetensors_vb = Except.ok ())
    (hmiss : paths.xlora_adapter_filenames = none ∨ paths.xlora_adapter_configs = none ∨
      paths.xlora_ordering = none ∨ paths.classifier_config = none ∨
      (k = ModelKind.xloraGGUF ∧ paths.classifier_path = none)) :
    GgufLoader.chooseModel k GgufArchitecture.llama paths ext =
      Outcome.panicked optionUnwrapPanicMsg ∧
    ∀ m b, GgufLoader.chooseModel k GgufArchitecture.llama paths ext ≠
      Outcome.ok (m, b) := by
  rcases hk with hk | hk <;> subst hk <;>
    rcases hcp : paths.classifier_path with _ | cp <;>
    rcases haf : paths.xlora_adapter_filenames with _ | af <;>
    rcases hac : paths.xlora_adapter_configs with _ | ac <;>
    rcases hor : paths.xlora_ordering with _ | oo <;>
    rcases hcc : paths.classifier_config with _ | cc <;>
    simp_all [GgufLoader.chooseModel]

/-- Witness for the amended claim C5: a static-LoRA-kind load whose adapter configs
are absent (everything else present) aborts by the unwrap panic. -/
theorem c5_amended_witness :
    GgufLoader.chooseModel ModelKind.loraGGUF GgufArchitecture.llama adapterPathsNoCfg
      sampleExternals = Outcome.panicked optionUnwrapPanicMsg :=
  (c5_amended_missing_adapter_input_panics ModelKind.loraGGUF adapterPathsNoCfg
    sampleExternals (Or.inl rfl) rfl (Or.inr (Or.inl (by decide)))).1

/-- Claim C6: forward dispatch routes by the variant tag — the Phi-2 arm calls its
forward with the token ids, the position offsets and the context lengths only, and
the adapter-aware arm calls its forward with both input sets (each full tensor
replaced by its primary counterpart when the full one was not built), the no-cache
flag, the stored Non-Granular Adaptation State and the context lengths. -/
theorem c6_forward_dispatch_routes_by_variant (p : GgufPipeline) (beh : ModelBehaviors)
    (builder : Bool → Bool → Device → Bool → Except String ModelInputs)
    (is_prompt : Bool) (inputs : ModelInputs)
    (hb : builder is_prompt p.is_xlora p.device p.no_kv_cache = Except.ok inputs) :
    (∀ m, p.model = Model.phi2 m →
      p.forward beh builder is_prompt =
        Outcome.ofResult (beh.phi2Forward inputs.input_ids inputs.seqlen_offsets
          inputs.context_lens)) ∧
    (∀ m, p.model = Model.xLoraLlama m →
      p.forward beh builder is_prompt =
        Outcome.ofResult (beh.xloraForward inputs.input_ids
          (inputs.input_ids_full.getD inputs.input_ids)
          inputs.seqlen_offsets
          (inputs.seqlen_offsets_full.getD inputs.seqlen_offsets)
          inputs.seqlen_offsets_kernel
          (inputs.seqlen_offsets_kernel_full.getD inputs.seqlen_offsets_kernel)
          p.no_kv_cache p.non_granular_state inputs.context_lens)) := by
  constructor <;> intro m hm <;>
    simp [GgufPipeline.forward, hb, GgufPipeline.dispatch, hm]

/-- Witness for claim C6: the sample Phi-2 pipeline with the constant builder
dispatches to the Phi-2 forward with exactly the three-argument list. -/
theorem c6_witness :
    phi2PipelineSample.forward sampleBehaviors constBuilder true =
      Outcome.ofResult (sampleBehaviors.phi2Forward sampleInputs.input_ids
        sampleInputs.seqlen_offsets sampleInputs.context_lens) :=
  (c6_forward_dispatch_routes_by_variant phi2PipelineSample sampleBehaviors
    constBuilder true sampleInputs rfl).1 sampleQPhi rfl

/-- Claim C7 counterexample: with a vocabulary mapping the declared eos token and the
fixed end-of-turn marker to the same id, a successful load stores the id twice, so
the resolved set is not duplicate-free when the two strings map to the same id. -/
theorem c7_counterexample_same_id_duplicated :
    pipelineEosOf (GgufLoader._setup_model plainLoaderSample plainPathsSample
      dupExternals) = some [5, 5] ∧
    dupTokenizer.getVocab "</s>" = some 5 ∧
    dupTokenizer.getVocab "<|eot_id|>" = some 5 ∧
    ¬ ([5, 5] : List Nat).Nodup := by
  refine ⟨by decide, by decide, by decide, by decide⟩

/-- Claim C7 as amended: with a template declaring the eos string and a vocabulary
containing the fixed end-of-turn marker, the resolved eos id list is exactly the id
of the declared eos string followed by the id of the marker, in that order; each
string is resolved independently with no deduplication, so the list is duplicate-free
exactly when the two ids differ. -/
theorem c7_amended_eos_resolution (ct : ChatTemplate) (tok : Tokenizer) (i j : Nat)
    (h1 : ct.eos_tok = "</s>")
    (h2 : tok.getVocab "</s>" = some i)
    (h3 : tok.getVocab "<|eot_id|>" = some j) :
    calculate_eos_tok (eosTokenStrings ct tok) tok = [i, j] ∧
    (i ≠ j → ([i, j] : List Nat).Nodup) ∧
    (∀ (self : GgufLoader) (paths : MistralModelPaths) (ext : Externals)
      (p : GgufPipeline),
      ext.tokenizer_from_file = Except.ok tok → ext.chat_template = Except.ok ct →
      GgufLoader._setup_model self paths ext = Outcome.ok p →
      p.eos_tok = [i, j]) := by
  have hlist : calculate_eos_tok (eosTokenStrings ct tok) tok = [i, j] := by
    simp [eosTokenStrings, calculate_eos_tok, h1, h2, h3]
  refine ⟨hlist, ?_, ?_⟩
  · intro hne
    simp [List.nodup_cons, hne]
  · intro self paths ext p htok hct h
    obtain ⟨arch, tok2, ct2, -, htok2, hct2, heos⟩ :=
      setup_model_ok_inversion self paths ext p h
    rw [htok] at htok2
    rw [hct] at hct2
    injection htok2 with htok2
    injection hct2 with hct2
    rw [heos, ← htok2, ← hct2, hlist]

/-- Witness for the amended claim C7: the sample tokenizer resolves the declared eos
string to 2 and the marker to 3, and the sample load stores exactly that list. -/
theorem c7_amended_witness :
    calculate_eos_tok (eosTokenStrings sampleTemplate sampleTokenizer) sampleTokenizer =
      [2, 3] :=
  (c7_amended_eos_resolution sampleTemplate sampleTokenizer 2 3 rfl (by decide)
    (by decide)).1

/-- Claim C9 counterexample: when input construction fails, the forward call panics
(the builder result is unwrapped) and in particular does not return the failure as an
error result, so input-construction failures are not propagated as errors. -/
theorem c9_counterexample_builder_failure_panics :
    llamaPipelineSample.forward sampleBehaviors failingBuilder true =
      Outcome.panicked resultUnwrapPanicMsg ∧
    Outcome.isErr (llamaPipelineSample.forward sampleBehaviors failingBuilder true) =
      false := by
  constructor <;> rfl

/-- Claim C9 as amended: a failure of the underlying forward computation is returned
unchanged to the caller and a success is returned as is (no retry, no rewrapping),
while a failure during input construction makes the call panic instead of returning
an error result. -/
theorem c9_amended_error_propagation (p : GgufPipeline) (beh : ModelBehaviors)
    (builder : Bool → Bool → Device → Bool → Except String ModelInputs)
    (is_prompt : Bool) :
    (∀ e, builder is_prompt p.is_xlora p.device p.no_kv_cache = Except.error e →
      p.forward beh builder is_prompt = Outcome.panicked resultUnwrapPanicMsg ∧
      Outcome.isErr (p.forward beh builder is_prompt) = false) ∧
    (∀ inputs e, builder is_prompt p.is_xlora p.device p.no_kv_cache = Except.ok inputs →
      p.dispatch beh inputs = Except.error e →
      p.forward beh builder is_prompt = Outcome.err e) ∧
    (∀ inputs t, builder is_prompt p.is_xlora p.device p.no_kv_cache = Except.ok inputs →
      p.dispatch beh inputs = Except.ok t →
      p.forward beh builder is_prompt = Outcome.ok t) := by
  refine ⟨?_, ?_, ?_⟩
  · intro e he
    constructor <;> simp [GgufPipeline.forward, he, Outcome.isErr]
  · intro inputs e hbu hd
    simp [GgufPipeline.forward, hbu, hd, Outcome.ofResult]
  · intro inputs t hbu hd
    simp [GgufPipeline.forward, hbu, hd, Outcome.ofResult]

/-- Witness for the amended claim C9: with a failing LLaMA-family kernel, the sample
plain pipeline returns exactly that compute error. -/
theorem c9_amended_witness :
    llamaPipelineSample.forward errorBehaviors constBuilder true =
      Outcome.err { msg := "kernel failed" } :=
  (c9_amended_error_propagation llamaPipelineSample errorBehaviors constBuilder
    true).2.1 sampleInputs { msg := "kernel failed" } rfl rfl

end MistralRS
